import Mathlib

/-!
Verification development for the rock-skipping water simulation.

The numeric state of the program is embedded over the rationals.  Calls into
the host math library (Math.sqrt, Math.acos, Math.pow, Math.PI, Math.random,
Date.now) and the GLSL sqrt hidden in the distance builtin are modelled as
explicit function parameters, so every definition stays computable and all
results hold for every interpretation of those calls.

Sources embedded here:
  - src/shaders/simulation_fragment.glsl  (the wave-field advance)
  - the Water class with the ping-pong simulation targets, its
    addDisturbance and simulate methods
  - src/objects/rock.js  (Rock.update, Rock.checkWaterCollision,
    Rock.checkBoundaries)
  - src/controllers/rockThrowController.js  (RockThrowController.update)
-/

namespace RockSkip

/-- Three-component vector over the rationals, mirroring THREE.Vector3. -/
structure Vec3 where
  x : ℚ
  y : ℚ
  z : ℚ
deriving DecidableEq

def Vec3.zero : Vec3 := ⟨0, 0, 0⟩

def Vec3.add (a b : Vec3) : Vec3 := ⟨a.x + b.x, a.y + b.y, a.z + b.z⟩

def Vec3.smul (c : ℚ) (v : Vec3) : Vec3 := ⟨c * v.x, c * v.y, c * v.z⟩

def Vec3.dot (a b : Vec3) : ℚ := a.x * b.x + a.y * b.y + a.z * b.z

def Vec3.lengthSq (v : Vec3) : ℚ := v.x * v.x + v.y * v.y + v.z * v.z

/-- THREE.Vector3.lerp: componentwise this + (v - this) * alpha. -/
def Vec3.lerp (a b : Vec3) (t : ℚ) : Vec3 :=
  ⟨a.x + (b.x - a.x) * t, a.y + (b.y - a.y) * t, a.z + (b.z - a.z) * t⟩

/-- Interpretation of the host math functions used by the physics code.
The fields stand for Math.sqrt, Math.acos, Math.pow and Math.PI; every
theorem below is quantified over this interpretation. -/
structure MathSig where
  sqrt : ℚ → ℚ
  acos : ℚ → ℚ
  pow : ℚ → ℚ → ℚ
  pi : ℚ

/-- Per-tick environment: the values produced by the at most three
Math.random() calls of one Rock.update tick, and Date.now(). -/
structure TickEnv where
  r1 : ℚ
  r2 : ℚ
  r3 : ℚ
  now : ℚ

/-- THREE.Vector3.length, computed through the modelled Math.sqrt. -/
def Vec3.length (m : MathSig) (v : Vec3) : ℚ := m.sqrt v.lengthSq

/-- THREE.Vector3.normalize: divideScalar(this.length() or 1); a zero
length falls back to the divisor 1 exactly as the JS truthiness test does. -/
def Vec3.normalize (m : MathSig) (v : Vec3) : Vec3 :=
  let len := v.length m
  v.smul (1 / (if len = 0 then 1 else len))

/-! The wave-field state held in one simulation render target: the shader
stores height in the red channel and velocity in the green channel, one
sample per texel of an (R+1) by (R+1) grid. -/

/-- One render-target worth of simulation data. -/
@[ext]
structure SimGrid (R : ℕ) where
  height : Fin (R + 1) → Fin (R + 1) → ℚ
  vel : Fin (R + 1) → Fin (R + 1) → ℚ

variable {R : ℕ}

/-- Clamp-to-edge texture addressing: out-of-range texel indices read the
nearest edge texel. -/
def clampIdx (R : ℕ) (i : ℤ) : Fin (R + 1) :=
  if i < 0 then ⟨0, Nat.succ_pos R⟩
  else if h : (R : ℤ) < i then ⟨R, Nat.lt_succ_self R⟩
  else ⟨i.toNat, by omega⟩

/-- Height sample at an integer texel coordinate with clamp-to-edge reads. -/
def heightAtInt (g : SimGrid R) (i j : ℤ) : ℚ :=
  g.height (clampIdx R i) (clampIdx R j)

/-- The uniform block of simulation_fragment.glsl. -/
structure SimUniforms where
  delta : ℚ
  viscosity : ℚ
  aspect : ℚ
  applyDisturbance : Bool
  disturbancePos : ℚ × ℚ
  amount : ℚ
  intensity : ℚ
  radius : ℚ

/-- Discrete Laplacian of simulation_fragment.glsl: horizontal neighbor term
divided by aspect squared, plus the vertical neighbor term. -/
def laplacianAt (aspect : ℚ) (g : SimGrid R) (i j : Fin (R + 1)) : ℚ :=
  let h := g.height i j
  (heightAtInt g ((i.val : ℤ) - 1) (j.val : ℤ)
      + heightAtInt g ((i.val : ℤ) + 1) (j.val : ℤ) - 2 * h) / (aspect * aspect)
    + (heightAtInt g (i.val : ℤ) ((j.val : ℤ) - 1)
      + heightAtInt g (i.val : ℤ) ((j.val : ℤ) + 1) - 2 * h)

/-- The shader velocity update: velocity plus laplacian times uDelta. -/
def newVelocityAt (u : SimUniforms) (g : SimGrid R) (i j : Fin (R + 1)) : ℚ :=
  g.vel i j + laplacianAt u.aspect g i j * u.delta

/-- The shader height update before damping: height plus the new velocity
times uDelta. -/
def undampedHeightAt (u : SimUniforms) (g : SimGrid R) (i j : Fin (R + 1)) : ℚ :=
  g.height i j + newVelocityAt u g i j * u.delta

/-- GLSL smoothstep with explicit edges, as evaluated on rationals. -/
def smoothstepGL (edge0 edge1 x : ℚ) : ℚ :=
  let t := max 0 (min 1 ((x - edge0) / (edge1 - edge0)))
  t * t * (3 - 2 * t)

/-- UV coordinate of the center of texel i on an (R+1)-texel axis. -/
def cellUv (R : ℕ) (i : Fin (R + 1)) : ℚ := ((i.val : ℚ) + 1 / 2) / ((R : ℚ) + 1)

/-- One pass of simulation_fragment.glsl over the whole grid.  The sq
parameter interprets the GLSL sqrt inside the distance builtin.  Per texel:
velocity += laplacian * delta, height += velocity * delta, both are damped by
(1 - viscosity * delta), then, if uApplyDisturbance is set, a
smoothstep-shaped bump scaled by uDisturbanceAmount * uDisturbanceIntensity
is added to the height. -/
def simStep (sq : ℚ → ℚ) (u : SimUniforms) (g : SimGrid R) : SimGrid R where
  height := fun i j =>
    let damped := undampedHeightAt u g i j * (1 - u.viscosity * u.delta)
    if u.applyDisturbance then
      let dist := sq ((cellUv R i - u.disturbancePos.1) ^ 2
        + (cellUv R j - u.disturbancePos.2) ^ 2)
      damped + smoothstepGL u.radius 0 dist * u.amount * u.intensity
    else damped
  vel := fun i j => newVelocityAt u g i j * (1 - u.viscosity * u.delta)

/-- The all-zero field state. -/
def zeroGrid (R : ℕ) : SimGrid R := ⟨fun _ _ => 0, fun _ _ => 0⟩

/-- Total grid height-squared energy. -/
def gridEnergy (g : SimGrid R) : ℚ := ∑ i, ∑ j, g.height i j ^ 2

/-- A queued point disturbance: clamped UV position and amount. -/
structure Disturbance where
  position : ℚ × ℚ
  amount : ℚ
deriving DecidableEq

/-- The Water object state relevant to the simulation: the two ping-pong
render targets, the pending disturbance queue, the simulation-material
uniforms, and the height map texture bound for the water material and the
collision consumers. -/
structure WaterState (R : ℕ) where
  rt1 : SimGrid R
  rt2 : SimGrid R
  disturbanceQueue : List Disturbance
  uApplyDisturbance : Bool
  uDisturbancePos : ℚ × ℚ
  uDisturbanceIntensity : ℚ
  uDisturbanceAmount : ℚ
  uDisturbanceRadius : ℚ
  uViscosity : ℚ
  uAspect : ℚ
  uHeightMap : SimGrid R

/-- Water.addDisturbance: clamp each UV coordinate into the unit interval
and push one entry onto the queue tail. -/
def WaterState.addDisturbance (w : WaterState R) (uv : ℚ × ℚ) (amount : ℚ) :
    WaterState R :=
  let clampedUvX := max 0 (min 1 uv.1)
  let clampedUvY := max 0 (min 1 uv.2)
  { w with disturbanceQueue :=
      w.disturbanceQueue ++ [{ position := (clampedUvX, clampedUvY), amount := amount }] }

/-- Water.simulate: clamp the frame delta and scale it by 8, shift at most
one disturbance off the queue head into the disturbance uniforms, run the
simulation pass from renderTarget1 into renderTarget2, swap the two render
targets, and bind the post-swap renderTarget2 texture as uHeightMap for the
water material. -/
def WaterState.simulate (sq : ℚ → ℚ) (deltaTime : ℚ) (w : WaterState R) :
    WaterState R :=
  let uDelta := min deltaTime (1 / 60) * 8
  match w.disturbanceQueue with
  | d :: rest =>
      let u : SimUniforms :=
        { delta := uDelta, viscosity := w.uViscosity, aspect := w.uAspect,
          applyDisturbance := true, disturbancePos := d.position,
          amount := w.uDisturbanceAmount, intensity := d.amount,
          radius := w.uDisturbanceRadius }
      { w with
          rt1 := simStep sq u w.rt1, rt2 := w.rt1,
          disturbanceQueue := rest, uApplyDisturbance := true,
          uDisturbancePos := d.position, uDisturbanceIntensity := d.amount,
          uHeightMap := w.rt1 }
  | [] =>
      let u : SimUniforms :=
        { delta := uDelta, viscosity := w.uViscosity, aspect := w.uAspect,
          applyDisturbance := false, disturbancePos := w.uDisturbancePos,
          amount := w.uDisturbanceAmount, intensity := w.uDisturbanceIntensity,
          radius := w.uDisturbanceRadius }
      { w with
          rt1 := simStep sq u w.rt1, rt2 := w.rt1,
          disturbanceQueue := [], uApplyDisturbance := false,
          uHeightMap := w.rt1 }

/-! The Rock physics body. -/

/-- The numeric fields of the Rock options object. -/
structure RockOptions where
  radius : ℚ
  mass : ℚ
  dragCoefficient : ℚ
  elasticity : ℚ
  minSkipVelocity : ℚ
  waterPlaneWidth : ℚ
  waterPlaneHeight : ℚ
  skipsBeforeSink : ℕ
  skipAngleThreshold : ℚ
  floorDepth : ℚ
deriving DecidableEq

/-- The mutable physics state of one Rock. -/
structure RockState where
  position : Vec3
  velocity : Vec3
  angularVelocity : Vec3
  rotation : Vec3
  isActive : Bool
  hasSunk : Bool
  skipCount : ℕ
  startTime : ℚ
  lastCollisionPoint : Option Vec3
deriving DecidableEq

/-- The gravity vector of the Rock class. -/
def gravity : Vec3 := ⟨0, -(49 / 5), 0⟩

/-- The water surface normal used in the incidence-angle computation. -/
def waterNormal : Vec3 := ⟨0, 1, 0⟩

/-- Rock.checkBoundaries: deactivate the rock when it leaves the plane
extents, falls far below the floor, or exceeds the three-second lifetime. -/
def checkBoundaries (now : ℚ) (o : RockOptions) (s : RockState) : RockState :=
  if s.position.x < -(o.waterPlaneWidth / 2) ∨ s.position.x > o.waterPlaneWidth / 2
      ∨ s.position.z < -(o.waterPlaneHeight / 2) ∨ s.position.z > o.waterPlaneHeight / 2
      ∨ s.position.y < o.floorDepth + 1 / 10
      ∨ now - s.startTime > 3000 then
    { s with isActive := false }
  else s

/-- Rock.checkWaterCollision.  On a downward crossing of the waterHeight
plane it computes the interpolated collision point, the impact speed and the
incidence angle, then either skips (increment skipCount, reflect the
vertical velocity by elasticity * (1 - skipCount / skipsBeforeSink) using
the incremented count, retain 95 percent of each horizontal component, take
a fresh random spin) or sinks (set hasSunk, snap to the collision point,
scale the velocity by 0.3, force a minimum downward component, halve the
spin); either way one disturbance is enqueued when a water reference is
present. -/
def checkWaterCollision (m : MathSig) (e : TickEnv) (o : RockOptions)
    (prevPosition : Vec3) (waterHeight : ℚ) (water : Option (WaterState R))
    (_deltaTime : ℚ) (s : RockState) : RockState × Option (WaterState R) :=
  if prevPosition.y ≥ waterHeight ∧ s.position.y < waterHeight then
    let t := (waterHeight - prevPosition.y) / (s.position.y - prevPosition.y)
    let collisionPoint := prevPosition.lerp s.position t
    let impactVelocity := s.velocity.length m
    let velocityDirection := s.velocity.normalize m
    let angleOfIncidence := |m.pi / 2 - m.acos (velocityDirection.dot waterNormal)|
    let disturbanceIntensity :=
      1 / 1000 + m.pow impactVelocity (5 / 2) * o.radius * o.radius * (o.mass / (1 / 10))
    let uvX := collisionPoint.x / o.waterPlaneWidth + 1 / 2
    let uvY := -collisionPoint.z / o.waterPlaneHeight + 1 / 2
    if angleOfIncidence < m.pi / 180 * o.skipAngleThreshold
        ∧ impactVelocity > o.minSkipVelocity * m.sqrt (o.mass / (1 / 10))
        ∧ s.skipCount < o.skipsBeforeSink then
      ({ s with
          lastCollisionPoint := some collisionPoint,
          skipCount := s.skipCount + 1,
          velocity := ⟨s.velocity.x * (19 / 20),
            -s.velocity.y * (o.elasticity
              * (1 - ((s.skipCount + 1 : ℕ) : ℚ) / (o.skipsBeforeSink : ℚ))),
            s.velocity.z * (19 / 20)⟩,
          angularVelocity := ⟨(e.r1 - 1 / 2) * 10, (e.r2 - 1 / 2) * 10,
            (e.r3 - 1 / 2) * 10⟩ },
        water.map (fun w =>
          w.addDisturbance (uvX, uvY) (w.uDisturbanceAmount * disturbanceIntensity)))
    else
      let v3 := s.velocity.smul (3 / 10)
      ({ s with
          lastCollisionPoint := some collisionPoint,
          hasSunk := true,
          position := collisionPoint,
          velocity := ⟨v3.x, -(max (1 / 5) (|v3.y| * (3 / 10))), v3.z⟩,
          angularVelocity := s.angularVelocity.smul (1 / 2) },
        water.map (fun w =>
          w.addDisturbance (uvX, uvY) (w.uDisturbanceAmount * disturbanceIntensity)))
  else (s, water)

/-- The force-integration block of Rock.update: in flight, gravity plus
quadratic air drag scaled by the inverse mass; once sunk, either hard clamp
at the floor or reduced underwater gravity, strong linear water drag, a
small random sway, a forced downward trickle at very low speed, and strong
angular damping. -/
def integrateForces (m : MathSig) (e : TickEnv) (o : RockOptions)
    (fixedDeltaTime : ℚ) (s : RockState) : RockState :=
  if s.hasSunk = false then
    let vel1 := s.velocity.add (gravity.smul fixedDeltaTime)
    let airDragForce := (vel1.normalize m).smul
      (-(1 / 10) * o.dragCoefficient * vel1.lengthSq * fixedDeltaTime)
    { s with velocity := vel1.add (airDragForce.smul (1 / o.mass)) }
  else if s.position.y ≤ o.floorDepth then
    { s with
        position := { s.position with y := o.floorDepth },
        velocity := Vec3.zero, angularVelocity := Vec3.zero }
  else
    let vel1 := s.velocity.add ((gravity.smul (3 / 10)).smul fixedDeltaTime)
    let vel2 := vel1.add (vel1.smul (-(4 / 5) * fixedDeltaTime))
    let vel3 : Vec3 := ⟨vel2.x + (e.r1 - 1 / 2) * (1 / 1000), vel2.y,
      vel2.z + (e.r2 - 1 / 2) * (1 / 1000)⟩
    let vel4 := if vel3.lengthSq < 1 / 100
      then ⟨vel3.x, vel3.y - (1 / 50) * fixedDeltaTime, vel3.z⟩ else vel3
    { s with velocity := vel4, angularVelocity := s.angularVelocity.smul (9 / 10) }

/-- The position and rotation block of Rock.update: integrate the position
when the velocity is nonzero, re-clamp a sunk rock that crossed the floor,
and integrate the rotation when the spin is above the threshold. -/
def integratePosition (o : RockOptions) (fixedDeltaTime : ℚ) (s : RockState) :
    RockState :=
  let s1 := if s.velocity.lengthSq > 0
    then { s with position := s.position.add (s.velocity.smul fixedDeltaTime) }
    else s
  let s2 := if s1.hasSunk = true ∧ s1.position.y < o.floorDepth
    then { s1 with
        position := { s1.position with y := o.floorDepth },
        velocity := Vec3.zero, angularVelocity := Vec3.zero }
    else s1
  if s2.angularVelocity.lengthSq > 1 / 1000
    then { s2 with rotation := s2.rotation.add (s2.angularVelocity.smul fixedDeltaTime) }
    else s2

/-- Rock.update: a no-op for inactive rocks; otherwise clamp the frame
delta, integrate forces and position, run the water-collision check while
not sunk, and apply the boundary check. -/
def Rock.update (m : MathSig) (e : TickEnv) (o : RockOptions)
    (deltaTime waterHeight : ℚ) (water : Option (WaterState R)) (s : RockState) :
    RockState × Option (WaterState R) :=
  if s.isActive = false then (s, water)
  else
    let fixedDeltaTime := min deltaTime (1 / 30)
    let prevPosition := s.position
    let s1 := integrateForces m e o fixedDeltaTime s
    let s2 := integratePosition o fixedDeltaTime s1
    let pw := if s2.hasSunk = false
      then checkWaterCollision m e o prevPosition waterHeight water fixedDeltaTime s2
      else (s2, water)
    (checkBoundaries e.now o pw.1, pw.2)

/-- RockThrowController.update over the active rocks: the JS loop walks the
array from the last index to the first, calling rock.update(deltaTime, 0,
this.water) on each and threading the shared water object; rocks are listed
here with their per-tick random environments. -/
def controllerRocksGo (m : MathSig) (o : RockOptions) (deltaTime : ℚ) :
    List (RockState × TickEnv) → Option (WaterState R) →
      List RockState × Option (WaterState R)
  | [], water => ([], water)
  | p :: rest, water =>
      let tailRes := controllerRocksGo m o deltaTime rest water
      let q := Rock.update m p.2 o deltaTime 0 tailRes.2 p.1
      (q.1 :: tailRes.1, q.2)

/-- Spec-side definition for the refinement comparison, following the spec
text: sampleHeight(uv) is a nearest lookup into the current height buffer at
the UV image of the body XZ position, with uvX = x / planeWidth + 0.5 and
uvY = -z / planeHeight + 0.5. -/
def specSampleHeight (g : SimGrid R) (o : RockOptions) (p : Vec3) : ℚ :=
  let uvX := p.x / o.waterPlaneWidth + 1 / 2
  let uvY := -p.z / o.waterPlaneHeight + 1 / 2
  g.height (clampIdx R ⌊uvX * ((R : ℚ) + 1)⌋) (clampIdx R ⌊uvY * ((R : ℚ) + 1)⌋)

/-- Spec-side controller tick for the refinement comparison: identical to
controllerRocksGo except that each body is updated against the WaveField
height sampled at its XZ position, as the spec describes, instead of the
constant 0 the source passes. -/
def specControllerRocksGo (m : MathSig) (o : RockOptions) (deltaTime : ℚ)
    (field : SimGrid R) :
    List (RockState × TickEnv) → Option (WaterState R) →
      List RockState × Option (WaterState R)
  | [], water => ([], water)
  | p :: rest, water =>
      let tailRes := specControllerRocksGo m o deltaTime field rest water
      let q := Rock.update m p.2 o deltaTime (specSampleHeight field o p.1.position)
        tailRes.2 p.1
      (q.1 :: tailRes.1, q.2)

/-! Concrete instances used by witnesses and counterexamples. -/

/-- Identity interpretation of the GLSL sqrt; the wave-field facts below do
not depend on it. -/
def sqId : ℚ → ℚ := fun q => q

/-- A math interpretation under which every square root is 1 and every
arc cosine is 0. -/
def mW : MathSig := { sqrt := fun _ => 1, acos := fun _ => 0, pow := fun _ _ => 1, pi := 4 }

/-- A math interpretation mirroring the skip-decision numbers of the spec
example: pi is taken as 180 so that degree thresholds compare directly, the
arc cosine of the impact direction is 85 (incidence 5), and the square root
of the squared impact speed 4 is 2. -/
def m4 : MathSig :=
  { sqrt := fun q => if q = 4 then 2 else 1, acos := fun _ => 85,
    pow := fun _ _ => 1, pi := 180 }

/-- A fixed per-tick environment. -/
def e0 : TickEnv := { r1 := 1 / 2, r2 := 1 / 2, r3 := 1 / 2, now := 0 }

/-- The default Rock option values of the source. -/
def opts0 : RockOptions :=
  { radius := 1 / 20, mass := 1 / 10, dragCoefficient := 1 / 5,
    elasticity := 9 / 10, minSkipVelocity := 2 / 5, waterPlaneWidth := 2,
    waterPlaneHeight := 2, skipsBeforeSink := 6, skipAngleThreshold := 17,
    floorDepth := -(1 / 2) }

/-- Options for the spec skip-decision example: five skips before sinking. -/
def opts4 : RockOptions := { opts0 with skipsBeforeSink := 5 }

/-- Options with no air drag, used by the field-sampling counterexample. -/
def opts1 : RockOptions := { opts0 with dragCoefficient := 0 }

/-- An inactive rock at rest. -/
def rockIdle : RockState :=
  { position := Vec3.zero, velocity := Vec3.zero, angularVelocity := Vec3.zero,
    rotation := Vec3.zero, isActive := false, hasSunk := false, skipCount := 0,
    startTime := 0, lastCollisionPoint := none }

/-- An active rock that has already sunk. -/
def rockSunk : RockState := { rockIdle with isActive := true, hasSunk := true }

/-- An active rock just above height 1, moving straight down fast. -/
def rock1 : RockState :=
  { rockIdle with
    isActive := true, position := ⟨0, 6 / 5, 0⟩,
    velocity := ⟨0, -30, 0⟩ }

/-- An active rock crossing the plane with the spec example impact speed 2. -/
def rock4 : RockState :=
  { rockIdle with
    isActive := true, position := ⟨0, -1, 0⟩,
    velocity := ⟨0, -2, 0⟩ }

/-- The previous position used for the concrete crossing events. -/
def prev4 : Vec3 := ⟨0, 1, 0⟩

/-- A 2 by 2 field with zero heights and one cell of unit velocity. -/
def g5 : SimGrid 1 :=
  { height := fun _ _ => 0,
    vel := fun i j => if i = 0 ∧ j = 0 then 1 else 0 }

/-- A constant-height-one field. -/
def field1 : SimGrid 1 := { height := fun _ _ => 1, vel := fun _ _ => 0 }

/-- The uniform values of one no-disturbance advance at the clamped frame
delta: uDelta = (1/60) * 8, viscosity 0.1, square aspect. -/
def u5 : SimUniforms :=
  { delta := 2 / 15, viscosity := 1 / 10, aspect := 1, applyDisturbance := false,
    disturbancePos := (0, 0), amount := 1, intensity := 1, radius := 1 / 250 }

/-- A Water state whose current buffer is g5, with an empty queue and the
default uniform values. -/
def w7 : WaterState 1 :=
  { rt1 := g5, rt2 := zeroGrid 1, disturbanceQueue := [],
    uApplyDisturbance := false, uDisturbancePos := (0, 0),
    uDisturbanceIntensity := 1, uDisturbanceAmount := 1,
    uDisturbanceRadius := 1 / 250, uViscosity := 1 / 10, uAspect := 1,
    uHeightMap := zeroGrid 1 }

/-- Two queued disturbances for the FIFO witness. -/
def d0 : Disturbance := { position := (1 / 2, 1 / 2), amount := 3 }

def d1 : Disturbance := { position := (1 / 4, 3 / 4), amount := 5 }

/-- The w7 water state with two pending disturbances. -/
def w2 : WaterState 1 := { w7 with disturbanceQueue := [d0, d1] }

end RockSkip

namespace RockSkip

/-! Helper lemmas shared by the claim theorems. -/

variable {R : ℕ}

theorem simStep_zeroGrid (sq : ℚ → ℚ) (u : SimUniforms)
    (h : u.applyDisturbance = false) : simStep sq u (zeroGrid R) = zeroGrid R := by
  ext i j
  · simp [simStep, undampedHeightAt, newVelocityAt, laplacianAt, heightAtInt,
      zeroGrid, h]
  · simp [simStep, newVelocityAt, laplacianAt, heightAtInt, zeroGrid]

theorem integrateForces_hasSunk (m : MathSig) (e : TickEnv) (o : RockOptions)
    (dt : ℚ) (s : RockState) : (integrateForces m e o dt s).hasSunk = s.hasSunk := by
  unfold integrateForces
  split_ifs <;> rfl

theorem integratePosition_hasSunk (o : RockOptions) (dt : ℚ) (s : RockState) :
    (integratePosition o dt s).hasSunk = s.hasSunk := by
  unfold integratePosition
  dsimp only
  split_ifs <;> rfl

theorem checkBoundaries_hasSunk (now : ℚ) (o : RockOptions) (s : RockState) :
    (checkBoundaries now o s).hasSunk = s.hasSunk := by
  unfold checkBoundaries
  split_ifs <;> rfl

theorem checkWaterCollision_fst (m : MathSig) (e : TickEnv) (o : RockOptions)
    (prev : Vec3) (wh : ℚ) (w w2 : Option (WaterState R)) (dt : ℚ) (s : RockState) :
    (checkWaterCollision m e o prev wh w dt s).1
      = (checkWaterCollision m e o prev wh w2 dt s).1 := by
  unfold checkWaterCollision
  dsimp only
  split_ifs <;> rfl

theorem update_hasSunk_mono (m : MathSig) (e : TickEnv) (o : RockOptions)
    (dt wh : ℚ) (w : Option (WaterState R)) (s : RockState)
    (h : s.hasSunk = true) : (Rock.update m e o dt wh w s).1.hasSunk = true := by
  unfold Rock.update
  dsimp only
  split_ifs with ha hc
  · exact h
  · rw [integratePosition_hasSunk, integrateForces_hasSunk, h] at hc
    cases hc
  · rw [checkBoundaries_hasSunk, integratePosition_hasSunk, integrateForces_hasSunk]
    exact h

theorem update_fst (m : MathSig) (e : TickEnv) (o : RockOptions)
    (dt wh : ℚ) (w w2 : Option (WaterState R)) (s : RockState) :
    (Rock.update m e o dt wh w s).1 = (Rock.update m e o dt wh w2 s).1 := by
  unfold Rock.update
  dsimp only
  split_ifs
  · rfl
  · exact congrArg (checkBoundaries e.now o)
      (checkWaterCollision_fst m e o s.position wh w w2 _ _)
  · rfl

end RockSkip

namespace RockSkip

/-! Claim theorems for the wave field. -/

/-- C6: the all-zero height and velocity field is a fixed point of the
advance step when no disturbance is applied, for every delta, viscosity,
aspect ratio and sqrt interpretation, and hence stays all-zero after any
number of steps. -/
theorem zero_state_fixed_point (sq : ℚ → ℚ) (u : SimUniforms) :
    simStep sq { u with applyDisturbance := false } (zeroGrid R) = zeroGrid R
      ∧ ∀ k : ℕ,
        (fun g => simStep sq { u with applyDisturbance := false } g)^[k] (zeroGrid R)
          = zeroGrid R := by
  have h1 : simStep sq { u with applyDisturbance := false } (zeroGrid R) = zeroGrid R :=
    simStep_zeroGrid sq _ rfl
  refine ⟨h1, fun k => ?_⟩
  induction k with
  | zero => rfl
  | succ n ih => rw [Function.iterate_succ_apply, h1, ih]

/-- C5 counterexample: an advance with positive viscosity and no disturbance
can strictly increase the total height-squared energy: on a 2 by 2 grid of
zero heights with one cell of unit velocity, the energy goes from 0 to a
positive value in one step. -/
theorem energy_increase_counterexample :
    0 < u5.viscosity ∧ u5.applyDisturbance = false
      ∧ gridEnergy g5 < gridEnergy (simStep sqId u5 g5) := by
  refine ⟨by norm_num [u5], rfl, ?_⟩
  simp [gridEnergy, simStep, u5, g5, sqId, undampedHeightAt, newVelocityAt,
    laplacianAt, heightAtInt, clampIdx, Fin.sum_univ_two]
  norm_num

/-- C5 amended: the damping stage of the advance never increases the total
height-squared energy.  When no disturbance is applied and the damping
coefficient viscosity * delta lies in [0, 2], the energy of the stepped
field is at most the energy of the undamped intermediate heights; the extra
energy of the full step can only come from the wave-propagation terms. -/
theorem damping_contracts_energy (sq : ℚ → ℚ) (u : SimUniforms) (g : SimGrid R)
    (hv : 0 < u.viscosity) (hd : 0 ≤ u.delta) (hvd : u.viscosity * u.delta ≤ 2)
    (hnd : u.applyDisturbance = false) :
    gridEnergy (simStep sq u g) ≤ ∑ i, ∑ j, undampedHeightAt u g i j ^ 2 := by
  have hc : 0 ≤ u.viscosity * u.delta := mul_nonneg hv.le hd
  unfold gridEnergy simStep
  dsimp only
  rw [hnd]
  simp only [Bool.false_eq_true, if_false]
  refine Finset.sum_le_sum fun i _ => Finset.sum_le_sum fun j _ => ?_
  have h1 : (1 - u.viscosity * u.delta) ^ 2 ≤ 1 := by nlinarith
  calc (undampedHeightAt u g i j * (1 - u.viscosity * u.delta)) ^ 2
      = undampedHeightAt u g i j ^ 2 * (1 - u.viscosity * u.delta) ^ 2 := by ring
    _ ≤ undampedHeightAt u g i j ^ 2 * 1 :=
        mul_le_mul_of_nonneg_left h1 (sq_nonneg _)
    _ = undampedHeightAt u g i j ^ 2 := by ring

/-- C5 witness: the damping contraction evaluated at the concrete
no-disturbance advance u5 on the concrete field g5. -/
theorem damping_contracts_energy_witness :
    gridEnergy (simStep sqId u5 g5) ≤ ∑ i, ∑ j, undampedHeightAt u5 g5 i j ^ 2 :=
  damping_contracts_energy sqId u5 g5 (by norm_num [u5]) (by norm_num [u5])
    (by norm_num [u5]) rfl

/-- C7: after one simulate call on a state whose current buffer has zero
heights but a nonzero velocity cell, the buffer bound as uHeightMap still
samples the pre-step height 0, while the field the advance just produced
(held by the post-swap renderTarget1, which the next pass reads as tPrev)
has a nonzero height there: the bound height map is one frame stale. -/
theorem heightMap_stale_after_simulate :
    (WaterState.simulate sqId (1 / 60) w7).uHeightMap.height 0 0 = 0
      ∧ (WaterState.simulate sqId (1 / 60) w7).rt1.height 0 0 ≠ 0
      ∧ (WaterState.simulate sqId (1 / 60) w7).uHeightMap.height 0 0
        ≠ (WaterState.simulate sqId (1 / 60) w7).rt1.height 0 0 := by
  have h0 : (WaterState.simulate sqId (1 / 60) w7).uHeightMap.height 0 0 = 0 := by
    simp [WaterState.simulate, w7, g5, zeroGrid]
  have h1 : (WaterState.simulate sqId (1 / 60) w7).rt1.height 0 0 ≠ 0 := by
    simp [WaterState.simulate, w7, g5, zeroGrid, simStep, undampedHeightAt,
      newVelocityAt, laplacianAt, heightAtInt, clampIdx, sqId]
    norm_num
  exact ⟨h0, h1, by rw [h0]; exact fun hc => h1 hc.symm⟩

/-- C2: one simulate call removes exactly the head of the disturbance queue:
the new queue is the tail of the old one, the disturbance pass is enabled
precisely when the queue was nonempty, a nonempty queue loads the head entry
into the disturbance uniforms and leaves the remaining entries queued, and
an empty queue disables the disturbance pass for that step. -/
theorem simulate_single_dequeue (sq : ℚ → ℚ) (dt : ℚ) (w : WaterState R) :
    (WaterState.simulate sq dt w).disturbanceQueue = w.disturbanceQueue.tail
      ∧ (WaterState.simulate sq dt w).uApplyDisturbance = !w.disturbanceQueue.isEmpty
      ∧ (∀ d rest, w.disturbanceQueue = d :: rest →
          (WaterState.simulate sq dt w).uDisturbancePos = d.position
            ∧ (WaterState.simulate sq dt w).uDisturbanceIntensity = d.amount
            ∧ (WaterState.simulate sq dt w).disturbanceQueue = rest)
      ∧ (w.disturbanceQueue = [] →
          (WaterState.simulate sq dt w).uApplyDisturbance = false) := by
  unfold WaterState.simulate
  rcases hq : w.disturbanceQueue with _ | ⟨d, rest⟩ <;> simp [hq]

/-- C2 witness: on a water state with two queued disturbances, one simulate
call loads the first entry into the uniforms and leaves the second queued. -/
theorem simulate_single_dequeue_witness :
    (WaterState.simulate sqId (1 / 60) w2).uDisturbancePos = d0.position
      ∧ (WaterState.simulate sqId (1 / 60) w2).uDisturbanceIntensity = d0.amount
      ∧ (WaterState.simulate sqId (1 / 60) w2).disturbanceQueue = [d1] :=
  (simulate_single_dequeue sqId (1 / 60) w2).2.2.1 d0 [d1] rfl

/-- C8: addDisturbance appends exactly one entry at the queue tail for every
input, with both stored UV coordinates clamped into the unit interval; in
particular the input uv (1.5, -0.3) is stored as (1, 0). -/
theorem addDisturbance_clamps :
    (∀ (w : WaterState R) (uv : ℚ × ℚ) (amount : ℚ), ∃ p : ℚ × ℚ,
        0 ≤ p.1 ∧ p.1 ≤ 1 ∧ 0 ≤ p.2 ∧ p.2 ≤ 1
          ∧ (w.addDisturbance uv amount).disturbanceQueue
            = w.disturbanceQueue ++ [{ position := p, amount := amount }])
      ∧ ∀ (w : WaterState R) (amount : ℚ),
        (w.addDisturbance (3 / 2, -(3 / 10)) amount).disturbanceQueue
          = w.disturbanceQueue ++ [{ position := (1, 0), amount := amount }] := by
  constructor
  · intro w uv amount
    refine ⟨(max 0 (min 1 uv.1), max 0 (min 1 uv.2)), le_max_left 0 _,
      max_le (by norm_num) (min_le_left 1 _), le_max_left 0 _,
      max_le (by norm_num) (min_le_left 1 _), rfl⟩
  · intro w amount
    have hx : max (0 : ℚ) (min 1 (3 / 2)) = 1 := by norm_num
    have hy : max (0 : ℚ) (min 1 (-(3 / 10))) = 0 := by
      rw [min_eq_right (by norm_num), max_eq_left (by norm_num)]
    unfold WaterState.addDisturbance
    dsimp only
    rw [hx, hy]

end RockSkip

namespace RockSkip

/-! Claim theorems for the projectile body and the controller. -/

variable {R : ℕ}

/-- C3: on a surface crossing of a body that has not sunk, the resolver
decides skip exactly when all three strict inequalities hold: incidence
angle below the radian-converted skipAngleThreshold, impact speed above
minSkipVelocity scaled by the square root of the relative mass, and
skipCount below skipsBeforeSink; when the speed or the angle sits exactly
at its threshold the skip condition fails and the body sinks. -/
theorem skip_decision_strict (m : MathSig) (e : TickEnv) (o : RockOptions)
    (prev : Vec3) (wh : ℚ) (water : Option (WaterState R)) (dt : ℚ) (s : RockState)
    (hcross : prev.y ≥ wh ∧ s.position.y < wh) (hs : s.hasSunk = false) :
    ((checkWaterCollision m e o prev wh water dt s).1.hasSunk = false
        ↔ (|m.pi / 2 - m.acos ((s.velocity.normalize m).dot waterNormal)|
              < m.pi / 180 * o.skipAngleThreshold
            ∧ s.velocity.length m > o.minSkipVelocity * m.sqrt (o.mass / (1 / 10))
            ∧ s.skipCount < o.skipsBeforeSink))
      ∧ (s.velocity.length m = o.minSkipVelocity * m.sqrt (o.mass / (1 / 10)) →
          (checkWaterCollision m e o prev wh water dt s).1.hasSunk = true)
      ∧ (|m.pi / 2 - m.acos ((s.velocity.normalize m).dot waterNormal)|
            = m.pi / 180 * o.skipAngleThreshold →
          (checkWaterCollision m e o prev wh water dt s).1.hasSunk = true) := by
  unfold checkWaterCollision
  dsimp only
  rw [if_pos hcross]
  by_cases hcond : |m.pi / 2 - m.acos ((s.velocity.normalize m).dot waterNormal)|
      < m.pi / 180 * o.skipAngleThreshold
      ∧ s.velocity.length m > o.minSkipVelocity * m.sqrt (o.mass / (1 / 10))
      ∧ s.skipCount < o.skipsBeforeSink
  · rw [if_pos hcond]
    refine ⟨⟨fun _ => hcond, fun _ => hs⟩, fun hv => ?_, fun hangle => ?_⟩
    · exact absurd hcond.2.1 (by rw [hv]; exact lt_irrefl _)
    · exact absurd hcond.1 (by rw [hangle]; exact lt_irrefl _)
  · rw [if_neg hcond]
    exact ⟨⟨fun h => absurd h (by simp), fun hc => absurd hc hcond⟩,
      fun _ => rfl, fun _ => rfl⟩

/-- C3 witness: the concrete crossing with incidence 5 degrees against a
17 degree threshold and impact speed 2 against scaled minimum 0.4 is decided
as a skip. -/
theorem skip_decision_strict_witness :
    (checkWaterCollision m4 e0 opts4 prev4 0 (none : Option (WaterState 1)) (1 / 30)
      rock4).1.hasSunk = false :=
  (skip_decision_strict m4 e0 opts4 prev4 0 none (1 / 30) rock4
    (by norm_num [prev4, rock4, rockIdle]) rfl).1.mpr
    (by norm_num [m4, opts4, opts0, rock4, rockIdle, Vec3.length, Vec3.normalize,
      Vec3.lengthSq, Vec3.smul, Vec3.dot, waterNormal])

/-- C4: on a skip decision, skipCount is incremented by one, the vertical
velocity is reflected to -vy times elasticity times
(1 - skipCount / skipsBeforeSink) computed with the incremented skipCount,
and each horizontal component is multiplied by 0.95. -/
theorem skip_effects (m : MathSig) (e : TickEnv) (o : RockOptions)
    (prev : Vec3) (wh : ℚ) (water : Option (WaterState R)) (dt : ℚ) (s : RockState)
    (hcross : prev.y ≥ wh ∧ s.position.y < wh)
    (hangle : |m.pi / 2 - m.acos ((s.velocity.normalize m).dot waterNormal)|
      < m.pi / 180 * o.skipAngleThreshold)
    (hspeed : s.velocity.length m > o.minSkipVelocity * m.sqrt (o.mass / (1 / 10)))
    (hcount : s.skipCount < o.skipsBeforeSink) :
    (checkWaterCollision m e o prev wh water dt s).1.skipCount = s.skipCount + 1
      ∧ (checkWaterCollision m e o prev wh water dt s).1.velocity.y
        = -s.velocity.y * (o.elasticity
            * (1 - ((s.skipCount + 1 : ℕ) : ℚ) / (o.skipsBeforeSink : ℚ)))
      ∧ (checkWaterCollision m e o prev wh water dt s).1.velocity.x
        = s.velocity.x * (19 / 20)
      ∧ (checkWaterCollision m e o prev wh water dt s).1.velocity.z
        = s.velocity.z * (19 / 20) := by
  unfold checkWaterCollision
  dsimp only
  rw [if_pos hcross, if_pos ⟨hangle, hspeed, hcount⟩]
  exact ⟨rfl, rfl, rfl, rfl⟩

/-- C4 witness: the spec example with skipsBeforeSink 5 and skipCount 0:
the first skip sets skipCount to 1 and the reflected vertical velocity is
-vy times elasticity times (1 - 1/5). -/
theorem skip_effects_witness :
    (checkWaterCollision m4 e0 opts4 prev4 0 (none : Option (WaterState 1)) (1 / 30)
        rock4).1.skipCount = 1
      ∧ (checkWaterCollision m4 e0 opts4 prev4 0 (none : Option (WaterState 1)) (1 / 30)
          rock4).1.velocity.y = -rock4.velocity.y * (opts4.elasticity * (1 - 1 / 5)) := by
  have h := skip_effects m4 e0 opts4 prev4 0 (none : Option (WaterState 1)) (1 / 30) rock4
    (by norm_num [prev4, rock4, rockIdle])
    (by norm_num [m4, opts4, opts0, rock4, rockIdle, Vec3.normalize, Vec3.length,
      Vec3.lengthSq, Vec3.smul, Vec3.dot, waterNormal])
    (by norm_num [m4, opts4, opts0, rock4, rockIdle, Vec3.length, Vec3.lengthSq])
    (by norm_num [opts4, opts0, rock4, rockIdle])
  refine ⟨h.1.trans (by norm_num [rock4, rockIdle]), h.2.1.trans ?_⟩
  norm_num [rock4, rockIdle, opts4, opts0]

/-- C9: once hasSunk is set, no sequence of update ticks, with any math
interpretations, random draws, frame deltas, water heights and shared water
state, ever clears it: the body never returns to flight through ticking. -/
theorem sunk_is_final (o : RockOptions) (w : Option (WaterState R)) (s : RockState)
    (ticks : List (MathSig × TickEnv × ℚ × ℚ)) (h : s.hasSunk = true) :
    (ticks.foldl
      (fun acc t => Rock.update t.1 t.2.1 o t.2.2.1 t.2.2.2 acc.2 acc.1)
      (s, w)).1.hasSunk = true := by
  induction ticks generalizing s w with
  | nil => exact h
  | cons t rest ih =>
      rw [List.foldl_cons]
      exact ih (Rock.update t.1 t.2.1 o t.2.2.1 t.2.2.2 w s).2
        (Rock.update t.1 t.2.1 o t.2.2.1 t.2.2.2 w s).1
        (update_hasSunk_mono t.1 t.2.1 o t.2.2.1 t.2.2.2 w s h)

/-- C9 witness: a sunk rock stays sunk through a concrete tick. -/
theorem sunk_is_final_witness :
    (([((mW, e0, 1 / 60, 0) : MathSig × TickEnv × ℚ × ℚ)]).foldl
      (fun acc t => Rock.update t.1 t.2.1 opts0 t.2.2.1 t.2.2.2 acc.2 acc.1)
      (rockSunk, (none : Option (WaterState 1)))).1.hasSunk = true :=
  sunk_is_final opts0 none rockSunk [(mW, e0, 1 / 60, 0)] rfl

/-- C10: updating an inactive body is a complete no-op for every math
interpretation, random draw, delta, water height and water reference: the
body state and the water state are returned unchanged. -/
theorem inactive_update_noop (m : MathSig) (e : TickEnv) (o : RockOptions)
    (dt wh : ℚ) (w : Option (WaterState R)) (s : RockState)
    (h : s.isActive = false) : Rock.update m e o dt wh w s = (s, w) := by
  unfold Rock.update
  rw [if_pos h]

/-- C10 witness: the inactive rest rock is untouched by a concrete update. -/
theorem inactive_update_noop_witness :
    Rock.update mW e0 opts0 (1 / 60) 0 (none : Option (WaterState 1)) rockIdle
      = (rockIdle, none) :=
  inactive_update_noop mW e0 opts0 (1 / 60) 0 none rockIdle rfl

/-- C1 amended: the controller tick updates every body against the constant
plane height 0 that RockThrowController.update passes, so the resulting body
states equal those of independent per-body updates with waterHeight 0 and no
water at all; in particular they never depend on the WaveField state. -/
theorem controller_tick_uses_plane_zero (m : MathSig) (o : RockOptions) (dt : ℚ)
    (pairs : List (RockState × TickEnv)) (w : Option (WaterState R)) :
    (controllerRocksGo m o dt pairs w).1
      = pairs.map (fun p =>
          (Rock.update m p.2 o dt 0 (none : Option (WaterState R)) p.1).1) := by
  induction pairs generalizing w with
  | nil => rfl
  | cons p rest ih =>
      simp only [controllerRocksGo, List.map, List.cons.injEq]
      exact ⟨update_fst m p.2 o dt 0 _ none p.1, ih _⟩

/-- C1 counterexample: over a constant height-1 field, a rock dropping from
y = 1.2 to about y = 0.19 in one controller tick is not collided by the code
(it compares against the constant 0), while the tick prescribed by the spec,
comparing against the sampled field height 1, detects the crossing and sinks
the body: the compared water height is not the field sample. -/
theorem crossing_height_not_field_sample :
    ((controllerRocksGo mW opts1 (1 / 30) [(rock1, e0)] (some w7)).1.map
        RockState.hasSunk = [false])
      ∧ ((specControllerRocksGo mW opts1 (1 / 30) field1 [(rock1, e0)] (some w7)).1.map
          RockState.hasSunk = [true])
      ∧ specSampleHeight field1 opts1 rock1.position = 1
      ∧ (controllerRocksGo mW opts1 (1 / 30) [(rock1, e0)] (some w7)).1
        ≠ (specControllerRocksGo mW opts1 (1 / 30) field1 [(rock1, e0)] (some w7)).1 := by
  have h1 : (controllerRocksGo mW opts1 (1 / 30) [(rock1, e0)] (some w7)).1.map
      RockState.hasSunk = [false] := by
    simp [controllerRocksGo, Rock.update, integrateForces, integratePosition,
      checkWaterCollision, checkBoundaries, mW, e0, opts1, opts0, rock1, rockIdle,
      gravity, Vec3.add, Vec3.smul, Vec3.normalize, Vec3.length, Vec3.lengthSq,
      Vec3.zero, Vec3.dot, Vec3.lerp, waterNormal]
    norm_num
  have h2 : (specControllerRocksGo mW opts1 (1 / 30) field1 [(rock1, e0)] (some w7)).1.map
      RockState.hasSunk = [true] := by
    simp [specControllerRocksGo, specSampleHeight, field1, Rock.update,
      integrateForces, integratePosition, checkWaterCollision, checkBoundaries,
      mW, e0, opts1, opts0, rock1, rockIdle, gravity, Vec3.add, Vec3.smul,
      Vec3.normalize, Vec3.length, Vec3.lengthSq, Vec3.zero, Vec3.dot, Vec3.lerp,
      waterNormal]
    norm_num
  have h3 : specSampleHeight field1 opts1 rock1.position = 1 := by
    simp [specSampleHeight, field1]
  refine ⟨h1, h2, h3, fun hEq => ?_⟩
  rw [hEq, h2] at h1
  simp at h1

end RockSkip
